import Mathlib

/-!
# TradeEdge Pro — formal model of the risk gate, percentile filter and audit chain

Shallow embedding of the parts of the repository that the specification's
claims concern:

* `backend/app/engine/portfolio_risk.py` — `PortfolioState`,
  `PortfolioRiskManager` and its rule chain (`check_all_rules`,
  `check_capital_concentration`, `daily_loss_limit_r`,
  `record_trade_result`, circuit breaker, concentration/sector gates);
* `backend/app/engine/signal_generator.py` — `filter_by_percentile`;
* `backend/app/core/audit.py` — `AuditLogger.log_event`,
  `AuditLogger._compute_hash`, `verify_audit_chain`, and the day iteration
  of `get_compliance_report`.

Modelling conventions:

* Python `float` P&L, capital and risk quantities are modelled as `ℚ`.
  Every claim settled below is evaluated on inputs where binary-float
  rounding cannot change any comparison involved.
* `hashlib.sha256(...).hexdigest()` is implemented bit-for-bit on byte
  lists (`sha256hex`), and `json.dumps(..., sort_keys=True)` is
  implemented for the concrete shape of audit entries (string-valued
  payload/version dictionaries, ASCII content), so hash-chain claims are
  settled against the real digest function.
* Python exceptions are modelled with `Except String`: a raised exception
  is `Except.error <exception text>`.
-/

namespace TradeEdge

/-! ## SHA-256 (hashlib.sha256(...).hexdigest() on ASCII input)

A byte is a `Nat < 256`; a word is a `Nat < 2^32` maintained by masking.
All recursions are structural (fuel-based where needed) so that every
definition reduces inside the kernel. -/

/-- 32-bit mask. -/
def mask32 : Nat := 4294967295

/-- Right rotation of a 32-bit word. -/
def rotr (n x : Nat) : Nat := ((x >>> n) ||| (x <<< (32 - n))) &&& mask32

/-- SHA-256 round constants. -/
def shaK : List Nat :=
  [1116352408, 1899447441, 3049323471, 3921009573, 961987163,
   1508970993, 2453635748, 2870763221, 3624381080, 310598401,
   607225278, 1426881987, 1925078388, 2162078206, 2614888103,
   3248222580, 3835390401, 4022224774, 264347078, 604807628,
   770255983, 1249150122, 1555081692, 1996064986, 2554220882,
   2821834349, 2952996808, 3210313671, 3336571891, 3584528711,
   113926993, 338241895, 666307205, 773529912, 1294757372,
   1396182291, 1695183700, 1986661051, 2177026350, 2456956037,
   2730485921, 2820302411, 3259730800, 3345764771, 3516065817,
   3600352804, 4094571909, 275423344, 430227734, 506948616,
   659060556, 883997877, 958139571, 1322822218, 1537002063,
   1747873779, 1955562222, 2024104815, 2227730452, 2361852424,
   2428436474, 2756734187, 3204031479, 3329325298]

/-- SHA-256 initial hash state. -/
def shaH0 : List Nat :=
  [1779033703, 3144134277, 1013904242, 2773480762,
   1359893119, 2600822924, 528734635, 1541459225]

/-- Split a byte list into 64-byte blocks (fuel = list length suffices). -/
def chunks64 : Nat → List Nat → List (List Nat)
  | 0, _ => []
  | _ + 1, [] => []
  | fuel + 1, l => l.take 64 :: chunks64 fuel (l.drop 64)

/-- Pack bytes into big-endian 32-bit words. -/
def bytesToWords : Nat → List Nat → List Nat
  | 0, _ => []
  | fuel + 1, a :: b :: c :: d :: rest =>
      ((((a <<< 8) ||| b) <<< 8 ||| c) <<< 8 ||| d) :: bytesToWords fuel rest
  | _ + 1, _ => []

/-- Message-schedule extension step, with the schedule built in reverse. -/
def extendLoop : Nat → List Nat → List Nat
  | 0, acc => acc
  | fuel + 1, acc =>
      let w2 := acc.getD 1 0
      let w7 := acc.getD 6 0
      let w15 := acc.getD 14 0
      let w16 := acc.getD 15 0
      let s0 := (rotr 7 w15) ^^^ (rotr 18 w15) ^^^ (w15 >>> 3)
      let s1 := (rotr 17 w2) ^^^ (rotr 19 w2) ^^^ (w2 >>> 10)
      extendLoop fuel (((w16 + s0 + w7 + s1) &&& mask32) :: acc)

/-- One SHA-256 round: state is the list [a,b,c,d,e,f,g,h]. -/
def shaRound (st : List Nat) (wk : Nat × Nat) : List Nat :=
  let a := st.getD 0 0
  let b := st.getD 1 0
  let c := st.getD 2 0
  let d := st.getD 3 0
  let e := st.getD 4 0
  let f := st.getD 5 0
  let g := st.getD 6 0
  let h := st.getD 7 0
  let s1 := (rotr 6 e) ^^^ (rotr 11 e) ^^^ (rotr 25 e)
  let ch := (e &&& f) ^^^ ((e ^^^ mask32) &&& g)
  let t1 := (h + s1 + ch + wk.2 + wk.1) &&& mask32
  let s0 := (rotr 2 a) ^^^ (rotr 13 a) ^^^ (rotr 22 a)
  let mj := (a &&& b) ^^^ (a &&& c) ^^^ (b &&& c)
  let t2 := (s0 + mj) &&& mask32
  [(t1 + t2) &&& mask32, a, b, c, (d + t1) &&& mask32, e, f, g]

/-- Compress one 64-byte block into the running state. -/
def shaCompress (st : List Nat) (block : List Nat) : List Nat :=
  let w16 := bytesToWords 16 block
  let wAll := (extendLoop 48 w16.reverse).reverse
  let fin := (wAll.zip shaK).foldl shaRound st
  (st.zip fin).map fun p => (p.1 + p.2) &&& mask32

/-- SHA-256 padding: 0x80, zeros to 56 mod 64, 8-byte big-endian bit length. -/
def shaPad (msg : List Nat) : List Nat :=
  let len := msg.length
  let bitlen := len * 8
  let zeros := (119 - len % 64) % 64
  msg ++ 0x80 :: List.replicate zeros 0 ++
    ([56, 48, 40, 32, 24, 16, 8, 0].map fun s => (bitlen >>> s) &&& 255)

/-- Lower-case hex digit. -/
def hexDigit (n : Nat) : Char :=
  if n < 10 then Char.ofNat (48 + n) else Char.ofNat (87 + n)

/-- A 32-bit word as 8 lower-case hex characters. -/
def word32ToHex (w : Nat) : String :=
  String.mk ([28, 24, 20, 16, 12, 8, 4, 0].map fun s => hexDigit ((w >>> s) &&& 15))

/-- SHA-256 digest of a byte list, as the usual lower-case hex string. -/
def sha256Bytes (msg : List Nat) : String :=
  let padded := shaPad msg
  let final := (chunks64 padded.length padded).foldl shaCompress shaH0
  String.join (final.map word32ToHex)

/-- `hashlib.sha256(s.encode("utf-8")).hexdigest()` for ASCII `s`
(for ASCII strings the UTF-8 bytes are the code points). -/
def sha256hex (s : String) : String :=
  sha256Bytes (s.toList.map Char.toNat)

set_option maxRecDepth 100000

/-- Sanity: the NIST test vector for "abc". -/
theorem sha256hex_abc :
    sha256hex "abc" =
      "ba7816bf8f01cfea414140de5dae2223b00361a396177a9cb410ff61f20015ad" := by
  decide

/-- Sanity: the digest of the empty message. -/
theorem sha256hex_empty :
    sha256hex "" =
      "e3b0c44298fc1c149afbf4c8996fb92427ae41e4649b934ca495991b7852b855" := by
  decide

/-! ## Audit log model (`backend/app/core/audit.py`)

The audit entry built by `AuditLogger.log_event` is a JSON object with the
keys `timestamp`, `event_type`, `versions`, `data`, `environment`,
`prev_hash` and `hash`.  `_compute_hash` hashes
`json.dumps({k: v for k, v in entry.items() if k != 'hash'}, sort_keys=True)`,
i.e. the key-sorted serialization of everything but `hash`; that content is
modelled structurally as `EntryContent`, with the stored hash kept beside it
in `AuditEntry`.

The `versions` value is the `SYSTEM_VERSIONS` dictionary of
`backend/app/core/versioning.py`; the `data` payload is modelled as a
string-to-string dictionary (all payloads used in the theorems below are
flat ASCII string maps, for which `json.dumps` needs no escaping beyond the
`jsonEscape` cases).

The `environment` field is where `log_event` actually breaks: the dict
literal at audit.py line 95 evaluates `settings.environment`, but
`settings` comes from `app.config.get_settings()` and `app.config.Settings`
declares no `environment` field (only the separate legacy `Settings` of
`config_loader.py`, which audit.py never imports, has one), so every
`log_event` call raises `AttributeError` there — before the entry is
built, before `_last_hash` is advanced, before any append is attempted.
The model keeps that split explicit: `settings_environment` is the raising
attribute read, `write_entry` is the entry-append logic of lines 96–110
(parametrised by the string the `environment` field would have held), and
`log_event` is their faithful composition, which therefore always raises. -/

/-- Byte-wise (code-point) string comparison, as Python compares `str`. -/
def strLeB (a b : String) : Bool :=
  go a.toList b.toList
where
  go : List Char → List Char → Bool
    | [], _ => true
    | _ :: _, [] => false
    | x :: xs, y :: ys =>
        if x.toNat < y.toNat then true
        else if y.toNat < x.toNat then false
        else go xs ys

/-- Insert into a list sorted ascending by `le`. -/
def insertBy (le : α → α → Bool) (x : α) : List α → List α
  | [] => [x]
  | y :: ys => if le x y then x :: y :: ys else y :: insertBy le x ys

/-- Insertion sort ascending by `le` (Python `sorted` on the same order). -/
def sortBy (le : α → α → Bool) : List α → List α
  | [] => []
  | x :: xs => insertBy le x (sortBy le xs)

/-- `json.dumps` string escaping, for the character set audit entries use. -/
def jsonEscape (s : String) : String :=
  String.join (s.toList.map fun c =>
    if c = '"' then "\\\""
    else if c = '\\' then "\\\\"
    else if c = '\n' then "\\n"
    else if c = '\t' then "\\t"
    else if c = '\r' then "\\r"
    else String.mk [c])

/-- A JSON string literal. -/
def jstr (s : String) : String := "\"" ++ jsonEscape s ++ "\""

/-- `json.dumps` of a string-valued dict with `sort_keys=True`
(default separators: `", "` and `": "`). -/
def dumpsStrObj (kvs : List (String × String)) : String :=
  "\x7b" ++
    String.intercalate ", "
      ((sortBy (fun p q => strLeB p.1 q.1) kvs).map fun kv =>
        jstr kv.1 ++ ": " ++ jstr kv.2) ++
  "\x7d"

/-- `SYSTEM_VERSIONS` from `backend/app/core/versioning.py`. -/
def SYSTEM_VERSIONS : List (String × String) :=
  [("engine", "2.0.0"),
   ("swing_strategy", "1.1.0"),
   ("bias_engine", "1.0.0"),
   ("risk_rules", "2.0.0"),
   ("scoring_model", "1.1.0"),
   ("data_feed", "1.0.0"),
   ("audit_trail", "2.0.0"),
   ("regime_engine", "2.0.0")]

/-- The attribute access `settings.environment` at audit.py line 95:
`app.config.Settings` (a pydantic model) declares no `environment` field,
so the access raises `AttributeError` on every call (see section comment). -/
def settings_environment : Except String String :=
  Except.error "AttributeError: Settings object has no attribute environment"

/-- Everything `log_event` puts into an entry except the `hash` field. -/
structure EntryContent where
  timestamp : String
  event_type : String
  versions : List (String × String)
  data : List (String × String)
  environment : String
  prev_hash : String
deriving DecidableEq, Repr

/-- A written audit entry: the hashed content plus the stored `hash`. -/
structure AuditEntry where
  content : EntryContent
  hash : String
deriving DecidableEq, Repr

/-- `json.dumps({k: v for k, v in entry.items() if k != 'hash'}, sort_keys=True)`:
the six remaining keys in sorted order
(data < environment < event_type < prev_hash < timestamp < versions). -/
def serializeContent (c : EntryContent) : String :=
  "\x7b" ++
    jstr "data" ++ ": " ++ dumpsStrObj c.data ++ ", " ++
    jstr "environment" ++ ": " ++ jstr c.environment ++ ", " ++
    jstr "event_type" ++ ": " ++ jstr c.event_type ++ ", " ++
    jstr "prev_hash" ++ ": " ++ jstr c.prev_hash ++ ", " ++
    jstr "timestamp" ++ ": " ++ jstr c.timestamp ++ ", " ++
    jstr "versions" ++ ": " ++ dumpsStrObj c.versions ++
  "\x7d"

/-- `AuditLogger._compute_hash`: SHA-256 of the key-sorted serialization of
the entry without its `hash` field. -/
def compute_hash (c : EntryContent) : String :=
  sha256hex (serializeContent c)

/-- `AuditLogger.GENESIS_HASH = "0" * 64`. -/
def GENESIS_HASH : String :=
  "0000000000000000000000000000000000000000000000000000000000000000"

/-- The logger's in-memory state: today's file contents (the parsed entries,
in order) and `_last_hash`. -/
structure LoggerState where
  file : List AuditEntry
  last_hash : String
deriving DecidableEq, Repr

/-- A fresh logger over an empty or missing daily file
(`_get_last_hash` returns `GENESIS_HASH`). -/
def initLogger : LoggerState := ⟨[], GENESIS_HASH⟩

/-- The entry content of the dict literal in `log_event` (before the hash
is added), given the string `env` the `environment` field would have held
had `settings.environment` not raised. -/
def logContent (st : LoggerState) (timestamp event_type : String)
    (data : List (String × String)) (env : String) : EntryContent :=
  { timestamp := timestamp
    event_type := event_type
    versions := SYSTEM_VERSIONS
    data := data
    environment := env
    prev_hash := st.last_hash }

/-- The entry-append logic of `log_event` (audit.py lines 96–110, after the
`settings.environment` read): compute and set the hash, advance
`_last_hash`, then attempt the append.  `writeOk = false` models the file
append raising (disk/permission error): that exception is caught, the
entry goes only to the fallback logger, and — crucially — `_last_hash` has
already been advanced. -/
def write_entry (st : LoggerState) (timestamp event_type : String)
    (data : List (String × String)) (env : String) (writeOk : Bool) :
    LoggerState :=
  let c := logContent st timestamp event_type data env
  let h := compute_hash c
  { file := if writeOk then st.file ++ [⟨c, h⟩] else st.file
    last_hash := h }

/-- `AuditLogger.log_event` as the source executes it: the dict literal
evaluates `settings.environment`, which raises, so the append logic is
never reached and every call propagates `AttributeError`. -/
def log_event (st : LoggerState) (timestamp event_type : String)
    (data : List (String × String)) (writeOk : Bool) :
    Except String LoggerState := do
  let env ← settings_environment
  return write_entry st timestamp event_type data env writeOk

theorem write_entry_true_eq (st : LoggerState) (t et : String)
    (d : List (String × String)) (env : String) :
    write_entry st t et d env true =
      ⟨st.file ++
          [⟨logContent st t et d env, compute_hash (logContent st t et d env)⟩],
        compute_hash (logContent st t et d env)⟩ := rfl

theorem write_entry_false_eq (st : LoggerState) (t et : String)
    (d : List (String × String)) (env : String) :
    write_entry st t et d env false =
      ⟨st.file, compute_hash (logContent st t et d env)⟩ := rfl

theorem write_entry_last_hash (st : LoggerState) (t et : String)
    (d : List (String × String)) (env : String) (wk : Bool) :
    (write_entry st t et d env wk).last_hash =
      compute_hash (logContent st t et d env) := by
  cases wk
  · rw [write_entry_false_eq]
  · rw [write_entry_true_eq]

/-- The per-line errors `verify_audit_chain` appends for one entry:
a `prev_hash` mismatch against the running previous stored hash, then a
stored-vs-recomputed hash mismatch. -/
def lineErrors (i : Nat) (prev : String) (e : AuditEntry) : List (Nat × String) :=
  (if e.content.prev_hash ≠ prev then [(i, "prev_hash mismatch")] else []) ++
  (if e.hash ≠ compute_hash e.content then [(i, "hash mismatch")] else [])

/-- The error-collection loop of `verify_audit_chain`: lines are numbered
from 1 and the running previous hash is the *stored* hash of each entry. -/
def verifyLoop : List AuditEntry → Nat → String → List (Nat × String)
  | [], _, _ => []
  | e :: rest, i, prev => lineErrors i prev e ++ verifyLoop rest (i + 1) e.hash

/-- `verify_audit_chain` on an existing file whose lines parse as JSON
entries: `(len(errors) == 0, errors)`. -/
def verify_audit_chain (entries : List AuditEntry) : Bool × List (Nat × String) :=
  let errs := verifyLoop entries 1 GENESIS_HASH
  (errs.isEmpty, errs)

/-- The hash-chain invariant from `prev`: each entry's `prev_hash` is the
previous stored hash and each stored hash is the recomputed hash. -/
def chainOkFrom : String → List AuditEntry → Prop
  | _, [] => True
  | prev, e :: rest =>
      e.content.prev_hash = prev ∧ e.hash = compute_hash e.content ∧
        chainOkFrom e.hash rest

/-- The full-file hash-chain invariant (genesis start). -/
def chainOk (entries : List AuditEntry) : Prop :=
  chainOkFrom GENESIS_HASH entries

/-- `chainOkFrom` is decidable (and so evaluable on concrete files). -/
def chainOkFromDec : (l : List AuditEntry) → (p : String) → Decidable (chainOkFrom p l)
  | [], _ => isTrue trivial
  | e :: rest, p => by
      haveI := chainOkFromDec rest e.hash
      unfold chainOkFrom
      infer_instance

instance : Decidable (chainOkFrom p l) := chainOkFromDec l p

instance : Decidable (chainOk l) := chainOkFromDec l GENESIS_HASH

theorem AuditEntry.hash_mk (c : EntryContent) (h : String) :
    (⟨c, h⟩ : AuditEntry).hash = h := rfl

theorem AuditEntry.content_mk (c : EntryContent) (h : String) :
    (⟨c, h⟩ : AuditEntry).content = c := rfl

theorem LoggerState.file_mk (f : List AuditEntry) (h : String) :
    (⟨f, h⟩ : LoggerState).file = f := rfl

theorem LoggerState.last_hash_mk (f : List AuditEntry) (h : String) :
    (⟨f, h⟩ : LoggerState).last_hash = h := rfl

/-- The stored hash of the last entry of a file, or `p` when it is empty
(the value `prev_hash` of the next appended entry must take). -/
def lastHashFrom (p : String) : List AuditEntry → String
  | [] => p
  | e :: rest => lastHashFrom e.hash rest

/-- Run a sequence of entry appends (`write_entry` with a fixed
environment marker) whose file writes all succeed; each element carries
(timestamp, event_type, payload). -/
def run_writes (env : String) (st : LoggerState) :
    List (String × String × List (String × String)) → LoggerState
  | [] => st
  | (t, et, d) :: rest => run_writes env (write_entry st t et d env true) rest

theorem ite_singleton_eq_nil {c : Prop} [Decidable c] (a : α) :
    (if c then [a] else []) = ([] : List α) ↔ ¬c := by
  split_ifs with h <;> simp [h]

theorem verifyLoop_eq_nil_iff (l : List AuditEntry) : ∀ (i : Nat) (p : String),
    verifyLoop l i p = [] ↔ chainOkFrom p l := by
  induction l with
  | nil => intro i p; simp [verifyLoop, chainOkFrom]
  | cons e rest ih =>
      intro i p
      simp only [verifyLoop, chainOkFrom, lineErrors, List.append_eq_nil,
        ite_singleton_eq_nil, ne_eq, not_not, ih]
      tauto

theorem lastHashFrom_singleton (p : String) (c : EntryContent) (h : String) :
    lastHashFrom p [⟨c, h⟩] = h := rfl

theorem lastHashFrom_append (xs : List AuditEntry) :
    ∀ (ys : List AuditEntry) (p : String),
    lastHashFrom p (xs ++ ys) = lastHashFrom (lastHashFrom p xs) ys := by
  induction xs with
  | nil => intro ys p; rfl
  | cons e rest ih => intro ys p; simpa [lastHashFrom] using ih ys e.hash

theorem verifyLoop_append (xs : List AuditEntry) :
    ∀ (ys : List AuditEntry) (i : Nat) (p : String),
    verifyLoop (xs ++ ys) i p =
      verifyLoop xs i p ++ verifyLoop ys (i + xs.length) (lastHashFrom p xs) := by
  induction xs with
  | nil => intro ys i p; simp [verifyLoop, lastHashFrom]
  | cons e rest ih =>
      intro ys i p
      have harith : i + 1 + rest.length = i + (rest.length + 1) := by omega
      simp [verifyLoop, lastHashFrom, ih, List.length_cons, harith]

theorem chainOkFrom_append (xs : List AuditEntry) :
    ∀ (ys : List AuditEntry) (p : String),
    chainOkFrom p (xs ++ ys) ↔
      chainOkFrom p xs ∧ chainOkFrom (lastHashFrom p xs) ys := by
  induction xs with
  | nil => intro ys p; simp [chainOkFrom, lastHashFrom]
  | cons e rest ih =>
      intro ys p
      simp [chainOkFrom, lastHashFrom, ih, and_assoc]

/-- The logger invariant maintained by successful entry appends. -/
def goodLogger (st : LoggerState) : Prop :=
  chainOk st.file ∧ st.last_hash = lastHashFrom GENESIS_HASH st.file

theorem goodLogger_init : goodLogger initLogger :=
  ⟨trivial, rfl⟩

theorem goodLogger_write_entry (st : LoggerState) (t et : String)
    (d : List (String × String)) (env : String) (h : goodLogger st) :
    goodLogger (write_entry st t et d env true) := by
  obtain ⟨hchain, hlast⟩ := h
  rw [write_entry_true_eq]
  constructor
  · exact (chainOkFrom_append st.file _ GENESIS_HASH).mpr
      ⟨hchain, hlast,
        (AuditEntry.hash_mk _ _).trans
          (congrArg compute_hash (AuditEntry.content_mk _ _).symm),
        trivial⟩
  · rw [LoggerState.last_hash_mk, LoggerState.file_mk, lastHashFrom_append st.file,
      lastHashFrom_singleton]

theorem goodLogger_run_writes (env : String)
    (events : List (String × String × List (String × String))) :
    ∀ (st : LoggerState), goodLogger st → goodLogger (run_writes env st events) := by
  induction events with
  | nil => intro st h; exact h
  | cons ev rest ih =>
      intro st h
      exact ih _ (goodLogger_write_entry st ev.1 ev.2.1 ev.2.2 env h)

/-- C5: for an audit file whose lines are well-formed JSON entries,
`verify_audit_chain` reports `isValid = True` if and only if every entry's
stored hash equals the SHA-256 of its key-sorted serialization excluding
the `hash` field and every entry's `prev_hash` equals the previous entry's
stored hash, with the 64-zero genesis value for the first entry (this is
exactly `chainOk`). -/
theorem C5_verify_isValid_iff_chain (entries : List AuditEntry) :
    (verify_audit_chain entries).1 = true ↔ chainOk entries := by
  show (verifyLoop entries 1 GENESIS_HASH).isEmpty = true ↔ _
  rw [List.isEmpty_iff]
  exact verifyLoop_eq_nil_iff entries 1 GENESIS_HASH

/-- C6: the claim says successful `log_event` calls leave a file
satisfying the hash-chain invariant, with `verify_audit_chain` returning
`(True, [])`.  In the source no `log_event` call can ever succeed:
conjunct 1 — every call raises `AttributeError` at the
`settings.environment` read (audit.py line 95), before any entry is built
or written, so no file is ever produced (contradicting the repo's own
smoke test, which calls `log_event` and expects it to log).  Conjunct 2 —
the claimed invariant is exactly what the entry-append logic after that
read (lines 96–110) establishes: for any environment marker and any
sequence of successful appends from an empty file, the file is
hash-chained from genesis and verifies to `(true, [])`. -/
theorem C6_log_event_raises :
    (∀ (st : LoggerState) (t et : String) (d : List (String × String))
        (wk : Bool),
      log_event st t et d wk =
        Except.error
          "AttributeError: Settings object has no attribute environment") ∧
    (∀ (env : String)
        (events : List (String × String × List (String × String))),
      chainOk (run_writes env initLogger events).file ∧
        verify_audit_chain (run_writes env initLogger events).file =
          (true, [])) := by
  refine ⟨fun st t et d wk => rfl, fun env events => ?_⟩
  obtain ⟨hchain, -⟩ := goodLogger_run_writes env events initLogger goodLogger_init
  refine ⟨hchain, ?_⟩
  have hnil : verifyLoop (run_writes env initLogger events).file 1 GENESIS_HASH = [] :=
    (verifyLoop_eq_nil_iff _ 1 GENESIS_HASH).mpr hchain
  show ((verifyLoop _ 1 GENESIS_HASH).isEmpty, verifyLoop _ 1 GENESIS_HASH) = (true, [])
  rw [hnil]
  rfl

theorem chainOkFrom_cons {p : String} {e : AuditEntry} {l : List AuditEntry} :
    chainOkFrom p (e :: l) ↔
      e.content.prev_hash = p ∧ e.hash = compute_hash e.content ∧
        chainOkFrom e.hash l :=
  Iff.rfl

theorem verifyLoop_cons (e : AuditEntry) (l : List AuditEntry) (i : Nat)
    (p : String) :
    verifyLoop (e :: l) i p = lineErrors i p e ++ verifyLoop l (i + 1) e.hash := rfl

theorem logContent_prev_hash (st : LoggerState) (t et : String)
    (d : List (String × String)) (env : String) :
    (logContent st t et d env).prev_hash = st.last_hash := rfl

theorem dataUpdate_prev_hash (c : EntryContent) (d' : List (String × String)) :
    ({ c with data := d' }).prev_hash = c.prev_hash := rfl

theorem dataUpdate_eq (c : EntryContent) (d' : List (String × String)) :
    ({ c with data := d' }) =
      ⟨c.timestamp, c.event_type, c.versions, d', c.environment, c.prev_hash⟩ := rfl

theorem lineErrors_clean (i : Nat) (p : String) (e : AuditEntry)
    (h1 : e.content.prev_hash = p) (h2 : e.hash = compute_hash e.content) :
    lineErrors i p e = [] := by
  unfold lineErrors
  rw [if_neg (by simp [h1]), if_neg (by simp [h2])]
  rfl

theorem lineErrors_hash_only (i : Nat) (p : String) (e : AuditEntry)
    (h1 : e.content.prev_hash = p) (h2 : e.hash ≠ compute_hash e.content) :
    lineErrors i p e = [(i, "hash mismatch")] := by
  unfold lineErrors
  rw [if_neg (by simp [h1]), if_pos h2]
  rfl

/-- C4 (amended form): in a well-formed audit file, replacing the payload of
one historical entry (so that the recomputed hash of its content no longer
matches its stored hash) makes `verify_audit_chain` flag exactly that
entry's line with a hash mismatch; the file reports invalid, but no later
line is flagged — later entries link to the unchanged *stored* hash. -/
theorem C4_payload_mutation (pre : List AuditEntry) (e : AuditEntry)
    (suf : List AuditEntry) (d' : List (String × String))
    (hchain : chainOk (pre ++ e :: suf))
    (hne : e.hash ≠ compute_hash { e.content with data := d' }) :
    verify_audit_chain (pre ++ ⟨{ e.content with data := d' }, e.hash⟩ :: suf) =
      (false, [(1 + pre.length, "hash mismatch")]) := by
  obtain ⟨hpre, hrest⟩ := (chainOkFrom_append pre (e :: suf) GENESIS_HASH).mp hchain
  obtain ⟨hprev, hhash, hsuf⟩ := chainOkFrom_cons.mp hrest
  have herrs :
      verifyLoop (pre ++ ⟨{ e.content with data := d' }, e.hash⟩ :: suf) 1
          GENESIS_HASH =
        [(1 + pre.length, "hash mismatch")] := by
    rw [verifyLoop_append, (verifyLoop_eq_nil_iff pre 1 GENESIS_HASH).mpr hpre,
      verifyLoop_cons,
      lineErrors_hash_only _ _ _
        ((AuditEntry.content_mk _ _).symm ▸ (dataUpdate_prev_hash e.content d') ▸ hprev)
        (by
          rw [AuditEntry.hash_mk, AuditEntry.content_mk]
          exact hne),
      AuditEntry.hash_mk,
      (verifyLoop_eq_nil_iff suf _ e.hash).mpr hsuf]
    simp
  show ((verifyLoop _ 1 GENESIS_HASH).isEmpty, verifyLoop _ 1 GENESIS_HASH) = _
  rw [herrs]
  rfl

/-- A concrete two-entry audit file in the on-disk format — exactly what
two successful entry appends with environment marker "development"
produce (see `exFile_from_write_entry`). -/
def exC1 : EntryContent :=
  { timestamp := "2025-06-02T10:00:00"
    event_type := "TRADE_ENTRY"
    versions := SYSTEM_VERSIONS
    data := [("symbol", "TCS")]
    environment := "development"
    prev_hash := GENESIS_HASH }

def exE1 : AuditEntry := ⟨exC1, compute_hash exC1⟩

def exC2 : EntryContent :=
  { timestamp := "2025-06-02T10:05:00"
    event_type := "TRADE_EXIT"
    versions := SYSTEM_VERSIONS
    data := [("symbol", "TCS")]
    environment := "development"
    prev_hash := compute_hash exC1 }

def exE2 : AuditEntry := ⟨exC2, compute_hash exC2⟩

def exFile : List AuditEntry := [exE1, exE2]

/-- `exFile` is exactly what two successful entry appends write. -/
theorem exFile_from_write_entry :
    exFile =
      (run_writes "development" initLogger
        [("2025-06-02T10:00:00", "TRADE_ENTRY", [("symbol", "TCS")]),
         ("2025-06-02T10:05:00", "TRADE_EXIT", [("symbol", "TCS")])]).file := rfl

/-- Entry 1's payload with one byte changed ("TCS" → "TCT"). -/
def exMutData : List (String × String) := [("symbol", "TCT")]

/-- The file after mutating one byte of entry 1's payload on disk
(its stored hash — and everything else — unchanged). -/
def exMutFile : List AuditEntry :=
  [⟨{ exC1 with data := exMutData }, compute_hash exC1⟩, exE2]

/-- C4 counterexample: `exFile` is a well-formed two-entry audit file;
after changing one byte of entry 1's payload, `verify_audit_chain` flags
line 1 but does **not** flag line 2, the later entry that depends on it —
contrary to the claim that dependent later entries are also flagged. -/
theorem C4_counterexample :
    chainOk exFile ∧
    ((verify_audit_chain exMutFile).2.any fun p => p.1 == 1) = true ∧
    ((verify_audit_chain exMutFile).2.any fun p => p.1 == 2) = false := by
  decide

/-- C4 witness: the amended statement evaluated on the concrete two-entry
file, giving exactly one flagged line. -/
theorem C4_payload_mutation_witness :
    verify_audit_chain
        (([] : List AuditEntry) ++ ⟨{ exE1.content with data := exMutData }, exE1.hash⟩ :: [exE2]) =
      (false, [(1 + ([] : List AuditEntry).length, "hash mismatch")]) :=
  C4_payload_mutation [] exE1 [exE2] exMutData (by decide) (by decide)

/-- C10 counterexample: the claim says a `log_event` call whose file
append fails returns normally (fallback logger) with `_last_hash` already
advanced; on a concrete one-entry logger state, `log_event` with a failing
append instead raises `AttributeError` at the `settings.environment` read
— it propagates an exception and produces no post-state at all, so
`_last_hash` is never advanced. -/
theorem C10_counterexample :
    log_event ⟨[exE1], exE1.hash⟩ "2025-06-02T11:00:00" "RISK_INTERVENTION"
        [("action", "KILL_SWITCH")] false =
      Except.error
        "AttributeError: Settings object has no attribute environment" ∧
    (∀ st' : LoggerState,
      log_event ⟨[exE1], exE1.hash⟩ "2025-06-02T11:00:00" "RISK_INTERVENTION"
          [("action", "KILL_SWITCH")] false ≠ Except.ok st') := by
  exact ⟨rfl, fun st' h => Except.noConfusion h⟩

/-- C10 (amended): every `log_event` call raises `AttributeError` at the
`settings.environment` read before the entry is built, so `_last_hash` is
never advanced and no append is ever attempted (conjunct 1).  Within the
entry-append logic that follows that read (audit.py lines 96–110,
unreachable as written), the claim's mechanism does hold: a failed append
writes nothing yet advances `_last_hash` to the failed entry's hash, so
the next successfully appended entry records a `prev_hash` equal to the
failed (never-written) entry's hash — and, whenever that hash differs from
the hash of the last entry actually on disk, a `prev_hash` that is not the
hash of the last entry on disk. -/
theorem C10_failed_write_divergence (st : LoggerState)
    (t1 et1 : String) (d1 : List (String × String))
    (t2 et2 : String) (d2 : List (String × String)) (env : String)
    (hne : compute_hash (logContent st t1 et1 d1 env) ≠
      lastHashFrom GENESIS_HASH st.file) :
    (∀ wk, log_event st t1 et1 d1 wk =
      Except.error
        "AttributeError: Settings object has no attribute environment") ∧
    (write_entry st t1 et1 d1 env false).file = st.file ∧
    (write_entry st t1 et1 d1 env false).last_hash =
      compute_hash (logContent st t1 et1 d1 env) ∧
    (write_entry (write_entry st t1 et1 d1 env false) t2 et2 d2 env true).file =
      (write_entry st t1 et1 d1 env false).file ++
        [⟨logContent (write_entry st t1 et1 d1 env false) t2 et2 d2 env,
          compute_hash
            (logContent (write_entry st t1 et1 d1 env false) t2 et2 d2 env)⟩] ∧
    (logContent (write_entry st t1 et1 d1 env false) t2 et2 d2 env).prev_hash =
      compute_hash (logContent st t1 et1 d1 env) ∧
    (logContent (write_entry st t1 et1 d1 env false) t2 et2 d2 env).prev_hash ≠
      lastHashFrom GENESIS_HASH st.file := by
  refine ⟨fun wk => rfl, ?_, ?_, ?_, ?_, ?_⟩
  · rw [write_entry_false_eq, LoggerState.file_mk]
  · rw [write_entry_false_eq, LoggerState.last_hash_mk]
  · rw [write_entry_true_eq, write_entry_false_eq, LoggerState.file_mk]
  · rw [logContent_prev_hash, write_entry_false_eq, LoggerState.last_hash_mk]
  · rw [logContent_prev_hash, write_entry_false_eq, LoggerState.last_hash_mk]
    exact hne

/-- C10 witness: concretely, after a failed append on a one-entry file the
next written entry's `prev_hash` differs from the hash of the entry on
disk. -/
theorem C10_failed_write_witness :
    (logContent
        (write_entry ⟨[exE1], exE1.hash⟩ "2025-06-02T11:00:00"
          "RISK_INTERVENTION" [("action", "KILL_SWITCH")] "development" false)
        "2025-06-02T11:05:00" "SIGNAL_DECISION" [("symbol", "INFY")]
        "development").prev_hash ≠
      lastHashFrom GENESIS_HASH (⟨[exE1], exE1.hash⟩ : LoggerState).file :=
  (C10_failed_write_divergence ⟨[exE1], exE1.hash⟩
    "2025-06-02T11:00:00" "RISK_INTERVENTION" [("action", "KILL_SWITCH")]
    "2025-06-02T11:05:00" "SIGNAL_DECISION" [("symbol", "INFY")] "development"
    (by decide)).2.2.2.2.2

/-- Sanity: the serialization matches `json.dumps(..., sort_keys=True)`
byte for byte on a concrete entry (reference string computed with CPython). -/
theorem serializeContent_reference :
    serializeContent
      { timestamp := "2025-06-02T10:00:00"
        event_type := "TRADE_ENTRY"
        versions := SYSTEM_VERSIONS
        data := [("symbol", "TCS"), ("quantity", "10")]
        environment := "development"
        prev_hash := GENESIS_HASH } =
      "\x7b\"data\": \x7b\"quantity\": \"10\", \"symbol\": \"TCS\"\x7d, " ++
      "\"environment\": \"development\", \"event_type\": \"TRADE_ENTRY\", " ++
      "\"prev_hash\": \"0000000000000000000000000000000000000000000000000000000000000000\", " ++
      "\"timestamp\": \"2025-06-02T10:00:00\", " ++
      "\"versions\": \x7b\"audit_trail\": \"2.0.0\", \"bias_engine\": \"1.0.0\", " ++
      "\"data_feed\": \"1.0.0\", \"engine\": \"2.0.0\", \"regime_engine\": \"2.0.0\", " ++
      "\"risk_rules\": \"2.0.0\", \"scoring_model\": \"1.1.0\", " ++
      "\"swing_strategy\": \"1.1.0\"\x7d\x7d" := by
  decide

/-! ## Portfolio risk manager (`backend/app/engine/portfolio_risk.py`)

P&L, capital and risk amounts are `ℚ`.  The block reasons returned by
`check_all_rules` are modelled as tags (`Reason`) standing for the
formatted f-strings of the source.  The correlation check's data fetch
(`_calculate_max_correlation`, a network call) is abstracted as a function
argument `corr`: `corr symbol open_symbols = some c` means the 30-day
return correlation computation returns `c`, `none` means it raises (the
source catches the exception and allows the trade); the
`_correlation_cache` only memoises this value and is dropped.  A Python
exception escaping a method is `Except.error <message>`. -/

/-- One entry of `PortfolioState.open_trades`
(the dict appended by `add_open_trade`). -/
structure Trade where
  symbol : String
  sector : String
  direction : String
  value : ℚ
deriving DecidableEq, Repr

/-- `PortfolioState` (dataclass, lines 32–62) with its field defaults.
Note it defines `open_trades`; it has **no** `open_positions` field. -/
structure PortfolioState where
  daily_pnl_r : ℚ := 0
  weekly_pnl_r : ℚ := 0
  consecutive_losses : Nat := 0
  open_trades : List Trade := []
  prev_regime : String := "NEUTRAL"
  current_regime : String := "NEUTRAL"
  total_capital : ℚ := 100000
  peak_capital : ℚ := 100000
  current_capital : ℚ := 100000
deriving Repr

/-- `PortfolioRiskManager.__init__` defaults plus its state. -/
structure PortfolioRiskManager where
  base_daily_limit : ℚ := 2
  weekly_loss_limit_r : ℚ := 6
  max_same_sector_direction : Nat := 2
  max_sector_exposure_pct : ℚ := 0.30
  consecutive_loss_limit : Nat := 3
  correlation_threshold : ℚ := 0.8
  state : PortfolioState := {}
deriving Repr

/-- `PortfolioRiskManager.DAILY_LIMITS`, in dict insertion order. -/
def DAILY_LIMITS : List (String × ℚ) :=
  [("TRENDING", 3.0), ("BULLISH", 3.0), ("RANGING", 1.5), ("SIDEWAYS", 1.5),
   ("VOLATILE", 1.0), ("DEAD", 0.0), ("NEUTRAL", 1.5)]

/-- Python `s.upper()` (ASCII case mapping, as used by the regime labels). -/
def strUpper (s : String) : String := String.mk (s.toList.map Char.toUpper)

/-- Boolean list-prefix test (structural, kernel-reducible). -/
def listPrefixB [BEq α] : List α → List α → Bool
  | [], _ => true
  | _ :: _, [] => false
  | x :: xs, y :: ys => x == y && listPrefixB xs ys

/-- Boolean contiguous-sublist test: Python's `key in s` on strings. -/
def listSubB [BEq α] : List α → List α → Bool
  | xs, [] => xs.isEmpty
  | xs, y :: ys => listPrefixB xs (y :: ys) || listSubB xs ys

/-- Python `a in b` for strings (contiguous substring containment). -/
def substrB (a b : String) : Bool := listSubB a.toList b.toList

/-- `daily_loss_limit_r` property: uppercase the current regime, return the
limit of the first `DAILY_LIMITS` key that occurs as a substring of it,
else the configured base default. -/
def daily_loss_limit_r (m : PortfolioRiskManager) : ℚ :=
  let regime := strUpper m.state.current_regime
  match DAILY_LIMITS.find? (fun kv => substrB kv.1 regime) with
  | some kv => kv.2
  | none => m.base_daily_limit

/-- `_check_daily_loss_kill`: block when daily P&L is below the
regime-based limit. -/
def check_daily_loss_kill (m : PortfolioRiskManager) : Bool :=
  decide (m.state.daily_pnl_r < -(daily_loss_limit_r m))

/-- `_check_circuit_breaker`: block after `consecutive_loss_limit`
consecutive losses. -/
def check_circuit_breaker (m : PortfolioRiskManager) : Bool :=
  decide (m.state.consecutive_losses ≥ m.consecutive_loss_limit)

/-- `_check_concentration_gate`: block when the count of open trades with
the same (sector, direction) reaches the configured maximum. -/
def check_concentration_gate (m : PortfolioRiskManager)
    (sector direction : String) : Bool :=
  decide ((m.state.open_trades.filter
      (fun t => t.sector == sector && t.direction == direction)).length ≥
    m.max_same_sector_direction)

/-- `_check_numerical_correlation`: no open symbols → allow; computation
raising → allow; otherwise block iff the max correlation exceeds the
threshold. -/
def check_numerical_correlation (corr : String → List String → Option ℚ)
    (m : PortfolioRiskManager) (symbol : String) : Bool :=
  let open_symbols := m.state.open_trades.map (·.symbol)
  if open_symbols.isEmpty then false
  else
    match corr symbol open_symbols with
    | some c => decide (c > m.correlation_threshold)
    | none => false

/-- `_check_sector_exposure`: block when existing sector value plus the new
position value exceeds `total_capital * max_sector_exposure_pct`. -/
def check_sector_exposure (m : PortfolioRiskManager) (sector : String)
    (new_position_value : ℚ) : Bool :=
  let current_sector_value :=
    ((m.state.open_trades.filter (fun t => t.sector == sector)).map
      (·.value)).foldl (· + ·) 0
  decide (current_sector_value + new_position_value >
    m.state.total_capital * m.max_sector_exposure_pct)

/-- The block reasons of `check_all_rules`, as tags for the reason
f-strings of the source (rules 1–6 in order). -/
inductive Reason where
  | dailyLoss
  | weeklyDrawdown
  | circuitBreaker
  | concentrationGate
  | correlationGate
  | sectorExposure
deriving DecidableEq, Repr

/-- `check_all_rules(sector, direction, position_value, symbol)`: the six
rules in fixed order, short-circuiting on first failure with
`(False, reason)`.  When every rule passes, the source evaluates
`if new_position_risk > 0:` — but `new_position_risk` is not a parameter
of `check_all_rules`, not a local, and not a module global, so Python
raises `NameError` there; the all-rules-pass path is modelled as that
error. -/
def check_all_rules (corr : String → List String → Option ℚ)
    (m : PortfolioRiskManager) (sector direction : String)
    (position_value : ℚ) (symbol : String) :
    Except String (Bool × Reason) :=
  if m.state.daily_pnl_r < -(daily_loss_limit_r m) then .ok (false, .dailyLoss)
  else if m.state.weekly_pnl_r < -m.weekly_loss_limit_r then
    .ok (false, .weeklyDrawdown)
  else if check_circuit_breaker m then .ok (false, .circuitBreaker)
  else if check_concentration_gate m sector direction then
    .ok (false, .concentrationGate)
  else if symbol ≠ "" && check_numerical_correlation corr m symbol then
    .ok (false, .correlationGate)
  else if check_sector_exposure m sector position_value then
    .ok (false, .sectorExposure)
  else .error "NameError: name new_position_risk is not defined"

/-- `record_trade_result(pnl_r)`: accumulate daily/weekly P&L; a loss
increments `consecutive_losses`, a non-loss resets it to 0. -/
def record_trade_result (m : PortfolioRiskManager) (pnl_r : ℚ) :
    PortfolioRiskManager :=
  { m with state :=
    { m.state with
      daily_pnl_r := m.state.daily_pnl_r + pnl_r
      weekly_pnl_r := m.state.weekly_pnl_r + pnl_r
      consecutive_losses :=
        if pnl_r < 0 then m.state.consecutive_losses + 1 else 0 } }

/-- The shape `check_capital_concentration` expects the elements of
`open_positions` to have (`pos.get('risk_amount', 0)`). -/
structure Position where
  risk_amount : ℚ
deriving Repr

/-- The attribute access `self.state.open_positions`: `PortfolioState` is a
dataclass with no `open_positions` field (it has `open_trades`), so this
raises `AttributeError` on every call. -/
def PortfolioState.open_positions (_s : PortfolioState) :
    Except String (List Position) :=
  Except.error "AttributeError: PortfolioState object has no attribute open_positions"

/-- Descending sort (`sorted(all_risks, reverse=True)`). -/
def sortDescQ (l : List ℚ) : List ℚ :=
  sortBy (fun a b => decide (b ≤ a)) l

/-- `check_capital_concentration(new_position_risk)`, translated
statement-by-statement.  The first statement reads
`self.state.open_positions`, which raises; the remaining (unreachable)
body is the top-3-concentration check of the source. -/
def check_capital_concentration (m : PortfolioRiskManager)
    (new_position_risk : ℚ) : Except String (Bool × String) := do
  let open_positions ← m.state.open_positions
  if open_positions.isEmpty then return (true, "")
  else
    let position_risks := open_positions.map (·.risk_amount)
    let all_risks := position_risks ++ [new_position_risk]
    let sorted_risks := sortDescQ all_risks
    let top3_risk := (sorted_risks.take 3).foldl (· + ·) 0
    let total_risk := all_risks.foldl (· + ·) 0
    if total_risk = 0 then return (true, "")
    else
      let concentration_pct := top3_risk / total_risk * 100
      if concentration_pct > 60 then return (false, "CAPITAL_CONCENTRATION")
      else return (true, "")

/-- A correlation oracle for concrete runs: no data available, so the
correlation check degrades to allow (as the source does on error). -/
def freshCorr : String → List String → Option ℚ := fun _ _ => none

/-- A freshly constructed `PortfolioRiskManager()` (all defaults). -/
def freshManager : PortfolioRiskManager := {}

/-- C1: the claim says `check_all_rules` always returns ALLOW or BLOCK and
never raises; in fact it can never return ALLOW — on the all-rules-pass
path the source evaluates the undefined name `new_position_risk` and
raises `NameError`.  Conjunct 1: no argument ever yields `(True, …)`.
Conjunct 2: a fresh manager with a benign candidate (all six rules pass)
hits the `NameError`. -/
theorem C1_check_all_rules_raises :
    (∀ (corr : String → List String → Option ℚ) (m : PortfolioRiskManager)
        (sector direction : String) (pv : ℚ) (symbol : String)
        (res : Reason),
       check_all_rules corr m sector direction pv symbol ≠
         Except.ok (true, res)) ∧
    check_all_rules freshCorr freshManager "IT" "BUY" 0 "" =
      Except.error "NameError: name new_position_risk is not defined" := by
  constructor
  · intro corr m sector direction pv symbol res h
    unfold check_all_rules at h
    split_ifs at h <;> simp_all
  · have hlim : daily_loss_limit_r freshManager = 1.5 := rfl
    have hse : check_sector_exposure freshManager "IT" 0 = false := by
      simp only [check_sector_exposure, freshManager]
      norm_num
    have hd0 : freshManager.state.daily_pnl_r = 0 := rfl
    have hw0 : freshManager.state.weekly_pnl_r = 0 := rfl
    have hwl : freshManager.weekly_loss_limit_r = 6 := rfl
    have hcb : check_circuit_breaker freshManager = false := rfl
    have hcg : check_concentration_gate freshManager "IT" "BUY" = false := rfl
    have hco : (decide (("" : String) ≠ "") &&
        check_numerical_correlation freshCorr freshManager "") = false := rfl
    unfold check_all_rules
    rw [if_neg (by rw [hd0, hlim]; norm_num)]
    rw [if_neg (by rw [hw0, hwl]; norm_num)]
    rw [if_neg (by rw [hcb]; simp)]
    rw [if_neg (by rw [hcg]; simp)]
    rw [if_neg (by rw [hco]; simp)]
    rw [if_neg (by rw [hse]; simp)]

/-- C2: the claim says `check_capital_concentration` implements the
top-3 ≤ 60% rule, skips below 2 positions, and never raises; in fact its
first statement reads `self.state.open_positions`, an attribute
`PortfolioState` does not define (the field is `open_trades`), so every
call — any manager state, any `new_position_risk` — raises
`AttributeError` before any of that logic runs. -/
theorem C2_capital_concentration_raises (m : PortfolioRiskManager) (r : ℚ) :
    check_capital_concentration m r =
      Except.error
        "AttributeError: PortfolioState object has no attribute open_positions" :=
  rfl

/-- A manager in a TRENDING regime with daily P&L −2.5R. -/
def mTrending : PortfolioRiskManager :=
  { state := { daily_pnl_r := -2.5, current_regime := "TRENDING" } }

/-- The same portfolio numbers in a RANGING regime. -/
def mRanging : PortfolioRiskManager :=
  { state := { daily_pnl_r := -2.5, current_regime := "RANGING" } }

/-- A mixed-case compound regime label, exercising the case-insensitive
substring lookup. -/
def mMixedCase : PortfolioRiskManager :=
  { state := { current_regime := "trending (bullish)" } }

/-- A regime label matching no `DAILY_LIMITS` key. -/
def mUnknownRegime : PortfolioRiskManager :=
  { state := { current_regime := "MELTUP" } }

/-- C7: with `dailyPnLR = −2.5`, rule 1 passes under TRENDING
(limit 3.0R, the kill check is off) and blocks under RANGING (limit 1.5R,
`check_all_rules` returns the rule-1 block); the limit table is matched by
case-insensitive substring (a lower-case compound label still maps to
3.0R), and when no key matches, the configured base default is used. -/
theorem C7_regime_daily_limit :
    daily_loss_limit_r mTrending = 3.0 ∧
    check_daily_loss_kill mTrending = false ∧
    daily_loss_limit_r mRanging = 1.5 ∧
    check_all_rules freshCorr mRanging "IT" "BUY" 0 "" =
      Except.ok (false, Reason.dailyLoss) ∧
    daily_loss_limit_r mMixedCase = 3.0 ∧
    (∀ m : PortfolioRiskManager,
      DAILY_LIMITS.find?
          (fun kv => substrB kv.1 (strUpper m.state.current_regime)) = none →
      daily_loss_limit_r m = m.base_daily_limit) := by
  refine ⟨rfl, ?_, rfl, ?_, rfl, ?_⟩
  · unfold check_daily_loss_kill
    apply decide_eq_false
    rw [show daily_loss_limit_r mTrending = 3.0 from rfl,
      show mTrending.state.daily_pnl_r = -2.5 from rfl]
    norm_num
  · unfold check_all_rules
    rw [if_pos (by rw [show mRanging.state.daily_pnl_r = -2.5 from rfl,
      show daily_loss_limit_r mRanging = 1.5 from rfl]; norm_num)]
  · intro m hnone
    simp only [daily_loss_limit_r]
    rw [hnone]

/-- C7 witness: the fallback clause evaluated at a concrete unmatched
regime label gives the base default. -/
theorem C7_regime_daily_limit_witness :
    daily_loss_limit_r mUnknownRegime = mUnknownRegime.base_daily_limit :=
  C7_regime_daily_limit.2.2.2.2.2 mUnknownRegime (by decide)

/-- A fresh manager after three consecutive 1R losses. -/
def m3loss : PortfolioRiskManager :=
  record_trade_result
    (record_trade_result (record_trade_result freshManager (-1)) (-1)) (-1)

/-- C8 counterexample: after exactly three consecutive losing
`record_trade_result` calls (−1R each) from a fresh manager,
`check_all_rules` does block — but with the rule-1 daily-loss reason
(−3R < −1.5R fires first), not the circuit-breaker reason the claim
asserts. -/
theorem C8_counterexample :
    check_all_rules freshCorr m3loss "IT" "BUY" 0 "" =
      Except.ok (false, Reason.dailyLoss) ∧
    check_all_rules freshCorr m3loss "IT" "BUY" 0 "" ≠
      Except.ok (false, Reason.circuitBreaker) := by
  have hd : m3loss.state.daily_pnl_r = -3 := by
    simp only [m3loss, record_trade_result, freshManager]
    norm_num
  have hlim : daily_loss_limit_r m3loss = 1.5 := rfl
  have heval : check_all_rules freshCorr m3loss "IT" "BUY" 0 "" =
      Except.ok (false, Reason.dailyLoss) := by
    unfold check_all_rules
    rw [if_pos (by rw [hd, hlim]; norm_num)]
  exact ⟨heval, by rw [heval]; simp⟩

/-- C8 (amended): from `consecutiveLosses = 0` (limit 3), any three
consecutive losing `record_trade_result` calls trip the circuit breaker
and make `check_all_rules` block every candidate; the reason is the
circuit-breaker reason whenever the accumulated daily and weekly P&L stay
inside their kill-switch limits (rules 1 and 2 take precedence otherwise);
one subsequent `record_trade_result` with `pnlR ≥ 0` resets
`consecutiveLosses` to 0 and the circuit breaker stops blocking. -/
theorem C8_circuit_breaker_amended (m0 : PortfolioRiskManager) (l1 l2 l3 : ℚ)
    (h0 : m0.state.consecutive_losses = 0)
    (hm : m0.consecutive_loss_limit = 3)
    (h1 : l1 < 0) (h2 : l2 < 0) (h3 : l3 < 0) :
    let m3 := record_trade_result
      (record_trade_result (record_trade_result m0 l1) l2) l3
    check_circuit_breaker m3 = true ∧
    (∀ corr sector direction pv symbol, ∃ r,
        check_all_rules corr m3 sector direction pv symbol =
          Except.ok (false, r)) ∧
    (¬ m3.state.daily_pnl_r < -(daily_loss_limit_r m3) →
     ¬ m3.state.weekly_pnl_r < -m3.weekly_loss_limit_r →
     ∀ corr sector direction pv symbol,
        check_all_rules corr m3 sector direction pv symbol =
          Except.ok (false, Reason.circuitBreaker)) ∧
    (∀ w : ℚ, 0 ≤ w →
      (record_trade_result m3 w).state.consecutive_losses = 0 ∧
      check_circuit_breaker (record_trade_result m3 w) = false) := by
  intro m3
  have hc3 : m3.state.consecutive_losses = 3 := by
    simp only [m3, record_trade_result]
    rw [if_pos h3, if_pos h2, if_pos h1, h0]
  have hl3 : m3.consecutive_loss_limit = 3 := by
    simp only [m3, record_trade_result]
    exact hm
  have hcb : check_circuit_breaker m3 = true := by
    unfold check_circuit_breaker
    apply decide_eq_true
    rw [hc3, hl3]
  refine ⟨hcb, ?_, ?_, ?_⟩
  · intro corr sector direction pv symbol
    unfold check_all_rules
    by_cases hdly : m3.state.daily_pnl_r < -(daily_loss_limit_r m3)
    · exact ⟨Reason.dailyLoss, by rw [if_pos hdly]⟩
    · by_cases hwk : m3.state.weekly_pnl_r < -m3.weekly_loss_limit_r
      · exact ⟨Reason.weeklyDrawdown, by rw [if_neg hdly, if_pos hwk]⟩
      · exact ⟨Reason.circuitBreaker,
          by rw [if_neg hdly, if_neg hwk, if_pos hcb]⟩
  · intro hdly hwk corr sector direction pv symbol
    unfold check_all_rules
    rw [if_neg hdly, if_neg hwk, if_pos hcb]
  · intro w hw
    have hr : (record_trade_result m3 w).state.consecutive_losses = 0 := by
      simp only [record_trade_result]
      rw [if_neg (not_lt.mpr hw)]
    refine ⟨hr, ?_⟩
    unfold check_circuit_breaker
    apply decide_eq_false
    rw [hr, show (record_trade_result m3 w).consecutive_loss_limit = 3 from by
      simp only [record_trade_result]; exact hl3]
    omega

/-- A fresh manager after three small losses (−0.1R each), keeping daily
P&L inside the NEUTRAL 1.5R limit. -/
def m3small : PortfolioRiskManager :=
  record_trade_result
    (record_trade_result (record_trade_result freshManager (-0.1)) (-0.1))
    (-0.1)

/-- C8 witness: the amended statement at concrete inputs — three −0.1R
losses produce a circuit-breaker block of a concrete candidate, and a
+0.2R result resets the counter and the breaker. -/
theorem C8_circuit_breaker_witness :
    check_all_rules freshCorr m3small "IT" "BUY" 0 "" =
      Except.ok (false, Reason.circuitBreaker) ∧
    (record_trade_result m3small 0.2).state.consecutive_losses = 0 ∧
    check_circuit_breaker (record_trade_result m3small 0.2) = false := by
  have hd : m3small.state.daily_pnl_r = -0.3 := by
    simp only [m3small, record_trade_result, freshManager]
    norm_num
  have hwk : m3small.state.weekly_pnl_r = -0.3 := by
    simp only [m3small, record_trade_result, freshManager]
    norm_num
  have hlim : daily_loss_limit_r m3small = 1.5 := rfl
  have hwl : m3small.weekly_loss_limit_r = 6 := rfl
  obtain ⟨hcb, hall, hreason, hreset⟩ :=
    C8_circuit_breaker_amended freshManager (-0.1) (-0.1) (-0.1) rfl rfl
      (by norm_num) (by norm_num) (by norm_num)
  refine ⟨?_, ?_, ?_⟩
  · refine hreason ?_ ?_ freshCorr "IT" "BUY" 0 ""
    · show ¬ m3small.state.daily_pnl_r < -(daily_loss_limit_r m3small)
      rw [hd, hlim]; norm_num
    · show ¬ m3small.state.weekly_pnl_r < -m3small.weekly_loss_limit_r
      rw [hwk, hwl]; norm_num
  · exact (hreset 0.2 (by norm_num)).1
  · exact (hreset 0.2 (by norm_num)).2

/-! ## Percentile filter (`backend/app/engine/signal_generator.py`)

`filter_by_percentile` receives swing results `{"signal": Signal, ...}`.
The guard `hasattr(results[0]["signal"], "confidence")` is true for the
swing `Signal` dataclass as well (it declares `confidence: str = "Medium"`),
so for swing candidates the function sorts and thresholds the *string*
`confidence` values, never the scores; the `score` branch is dead for
swing inputs.  A swing result is modelled by its two fields the function
can touch. -/

/-- The two fields of a swing result `filter_by_percentile` can read. -/
structure SwingResult where
  score : Int
  confidence : String
deriving DecidableEq, Repr

/-- `max(1, int(len(scores) * (1 - percentile)))`.  The product is
non-negative for the percentiles the source passes (0 ≤ p ≤ 1), so
Python's `int()` truncation is the floor. -/
def percentileCutoff (n : Nat) (p : ℚ) : Nat :=
  max 1 (Int.toNat ⌊(n : ℚ) * (1 - p)⌋)

/-- `filter_by_percentile` on swing results: lists shorter than 5 pass
through; otherwise the `hasattr` guard selects the confidence branch
(see the section comment), so the descending sort, the threshold pick and
the `>=` filter all act on the confidence strings. -/
def filter_by_percentile (results : List SwingResult) (percentile : ℚ) :
    List SwingResult :=
  if results.length < 5 then results
  else
    let scores := sortBy (fun a b => strLeB b a) (results.map (·.confidence))
    let cutoff_idx := percentileCutoff results.length percentile
    let threshold := scores.getD (cutoff_idx - 1) ""
    results.filter (fun r => strLeB threshold r.confidence)

/-- Five swing candidates with distinct scores and the default
`confidence = "Medium"`. -/
def exSwing : List SwingResult :=
  [⟨90, "Medium"⟩, ⟨80, "Medium"⟩, ⟨70, "Medium"⟩, ⟨60, "Medium"⟩,
   ⟨50, "Medium"⟩]

/-- C3: on five swing candidates with distinct scores (all default
confidence "Medium"), the filter at the default percentile 0.92 returns
all five unchanged, because it thresholds the equal confidence strings;
the claimed score-based rule (keep score ≥ the top sorted score, here 90)
would keep exactly one.  The score values are never consulted. -/
theorem C3_swing_filter_uses_confidence :
    filter_by_percentile exSwing 0.92 = exSwing ∧
    exSwing.filter (fun r => decide (90 ≤ r.score)) = [⟨90, "Medium"⟩] ∧
    exSwing.map (fun r => r.score) = [90, 80, 70, 60, 50] := by
  have hcut : percentileCutoff 5 0.92 = 1 := by
    unfold percentileCutoff
    norm_num
  refine ⟨?_, by decide, by decide⟩
  simp only [filter_by_percentile]
  rw [if_neg (by decide), show exSwing.length = 5 from rfl, hcut]
  decide

/-! ## Compliance-report day iteration (`get_compliance_report`)

The report loop advances its cursor with
`date(y, m, d+1) if d < 28 else date(y, m+1, 1) if m < 12 else
date(y+1, 1, 1)` — whenever the cursor sits on day 28 or later it jumps to
the 1st of the next month, so days 29, 30 and 31 are never visited.  The
loop appends one day report per iteration and breaks once more than 365
days have been collected, so 400 fuel strictly dominates the iteration
count. -/

/-- A `datetime.date`, compared lexicographically. -/
structure PyDate where
  year : Nat
  month : Nat
  day : Nat
deriving DecidableEq, Repr

/-- `current <= end_date` on dates. -/
def PyDate.leB (a b : PyDate) : Bool :=
  decide (a.year < b.year) ||
    (a.year == b.year &&
      (decide (a.month < b.month) ||
        (a.month == b.month && decide (a.day ≤ b.day))))

/-- The cursor advance of `get_compliance_report` (verbatim conditional). -/
def next_report_day (c : PyDate) : PyDate :=
  if c.day < 28 then ⟨c.year, c.month, c.day + 1⟩
  else if c.month < 12 then ⟨c.year, c.month + 1, 1⟩
  else ⟨c.year + 1, 1, 1⟩

/-- The report's day loop: collect the visited days in order, stopping on
the `> 365` cap or when the cursor passes `end_date`. -/
def report_days_loop : Nat → PyDate → PyDate → List PyDate → List PyDate
  | 0, _, _, acc => acc
  | fuel + 1, cur, endD, acc =>
      if PyDate.leB cur endD then
        let acc2 := acc ++ [cur]
        if acc2.length > 365 then acc2
        else report_days_loop fuel (next_report_day cur) endD acc2
      else acc

/-- The dates of the `days` entries `get_compliance_report` produces. -/
def compliance_report_days (s e : PyDate) : List PyDate :=
  report_days_loop 400 s e []

/-- The report's overall verdict: "VERIFIED" iff every *visited* day whose
file exists has a valid chain (`files d = none` models a missing file). -/
def chainIntegrityStatus (files : PyDate → Option (List AuditEntry))
    (s e : PyDate) : String :=
  if (compliance_report_days s e).all (fun d =>
      match files d with
      | some entries => (verify_audit_chain entries).1
      | none => true) then "VERIFIED" else "COMPROMISED"

/-- A one-entry audit file whose stored hash is wrong. -/
def corruptFile : List AuditEntry := [⟨exC1, GENESIS_HASH⟩]

/-- C9: for `startDate = 2025-01-28`, `endDate = 2025-01-29` the claim
demands one day entry for each of the two calendar days; the code's
cursor jumps from the 28th to February 1st, so the report covers only
2025-01-28 — and a corrupt audit file dated 2025-01-29 goes unchecked,
leaving the overall verdict "VERIFIED". -/
theorem C9_compliance_day_iteration :
    compliance_report_days ⟨2025, 1, 28⟩ ⟨2025, 1, 29⟩ = [⟨2025, 1, 28⟩] ∧
    (verify_audit_chain corruptFile).1 = false ∧
    chainIntegrityStatus
        (fun d => if d = ⟨2025, 1, 29⟩ then some corruptFile else none)
        ⟨2025, 1, 28⟩ ⟨2025, 1, 29⟩ = "VERIFIED" := by
  refine ⟨by decide, by decide, by decide⟩

end TradeEdge
